import Mathlib

/-!
# Anonmsgbot: the relay loop of `cmd/bot/main.go`

A shallow embedding of the update loop of `main` together with the three
SQLite tables it creates (`users`, `messages`, `sessions`).

* The store is a record of three row lists.  The SQL statements issued by
  `main` are functions on it.
* Everything the loop body reads from outside the store is an explicit input
  of one step: the update itself, the string returned by
  `uuid.New().String()`, the outcome of each database call a step may issue
  (one query on `sessions`, one query on `users`, one `db.Exec`), and the value
  of `CURRENT_TIMESTAMP`.
* A query reports an error (`err != nil` after `Scan`) when no row matches, and
  also when the call fails for reasons outside the store.  A `db.Exec` may fail
  for reasons outside the store.  Both failures are inputs of the step.
* A step returns the new store, the list of `bot.Send` requests and the list of
  `log.Printf` lines, in program order.  The result of `bot.Send` is discarded
  by the program and is not modelled.
-/

namespace Anonmsgbot

/-! ## Data model (the three structs of `main.go`) -/

/-- Row of table `users`, Go struct `User`.  `telegram_id` is the primary key,
`unique_id` is `TEXT NOT NULL UNIQUE`. -/
structure User where
  TelegramID : Int
  UniqueID : String
  deriving DecidableEq

/-- Row of table `messages`, Go struct `Message`. -/
structure Message where
  ID : Nat
  FromAnonID : Int
  ToOwnerID : Int
  Text : String
  Timestamp : String
  IsRead : Bool
  deriving DecidableEq

/-- Row of table `sessions`, Go struct `Session`.  `anon_id` is the primary
key. -/
structure Session where
  AnonID : Int
  UniqueID : String
  deriving DecidableEq

/-- The database file: the rows of the three tables, and the counter SQLite
keeps in `sqlite_sequence` for the `AUTOINCREMENT` column of `messages`. -/
structure Store where
  users : List User
  messages : List Message
  messagesSeq : Nat
  sessions : List Session
  deriving DecidableEq

/-- The database right after the `CREATE TABLE IF NOT EXISTS` statements ran on
a fresh file. -/
def emptyStore : Store := ⟨[], [], 0, []⟩

/-! ## The SQL statements of `main` -/

/-- The `telegram_id` of the `users` row whose `unique_id` is `uniqueID`, if
there is one: what `SELECT telegram_id FROM users WHERE unique_id = ?` yields
when the call itself does not fail. -/
def lookupOwner (s : Store) (uniqueID : String) : Option Int :=
  (s.users.find? (fun u => decide (u.UniqueID = uniqueID))).map User.TelegramID

/-- The `unique_id` of the `sessions` row whose `anon_id` is `anonID`, if there
is one: what `SELECT unique_id FROM sessions WHERE anon_id = ?` yields when the
call itself does not fail. -/
def lookupToken (s : Store) (anonID : Int) : Option String :=
  (s.sessions.find? (fun r => decide (r.AnonID = anonID))).map Session.UniqueID

/-- Statement `SELECT telegram_id FROM users WHERE unique_id = ?` followed by
`Scan(&ownerID)`.  `none` is the `err != nil` outcome: no row matches, or the
call fails (`scanOk = false`). -/
def selectTelegramID (scanOk : Bool) (s : Store) (uniqueID : String) : Option Int :=
  if scanOk then lookupOwner s uniqueID else none

/-- Statement `SELECT unique_id FROM sessions WHERE anon_id = ?` followed by
`Scan(&uniqueID)`.  `none` is the `err != nil` outcome: no row matches, or the
call fails (`scanOk = false`). -/
def selectUniqueID (scanOk : Bool) (s : Store) (anonID : Int) : Option String :=
  if scanOk then lookupToken s anonID else none

/-- Statement `INSERT OR REPLACE INTO users (telegram_id, unique_id) VALUES (?, ?)`.
`REPLACE` conflict resolution deletes every row that collides with the new one
on the primary key `telegram_id` or on the `UNIQUE` column `unique_id`, then
inserts.  The connection is opened as `./anonbot.db` with no foreign-key
option and no `PRAGMA foreign_keys`, so the `FOREIGN KEY` clause of `sessions`
is not enforced and `sessions` is not touched. -/
def insertOrReplaceUser (s : Store) (telegramID : Int) (uniqueID : String) : Store :=
  { s with users :=
      s.users.filter (fun u => decide (u.TelegramID ≠ telegramID ∧ u.UniqueID ≠ uniqueID))
        ++ [⟨telegramID, uniqueID⟩] }

/-- Statement `INSERT OR REPLACE INTO sessions (anon_id, unique_id) VALUES (?, ?)`:
the row with the same primary key `anon_id`, if any, is deleted, then the new
row is inserted. -/
def insertOrReplaceSession (s : Store) (anonID : Int) (uniqueID : String) : Store :=
  { s with sessions :=
      s.sessions.filter (fun r => decide (r.AnonID ≠ anonID)) ++ [⟨anonID, uniqueID⟩] }

/-- Largest `id` among the rows of `messages` (0 when empty). -/
def maxMessageID (ms : List Message) : Nat :=
  ms.foldl (fun acc m => max acc m.ID) 0

/-- Statement `INSERT INTO messages (from_anon_id, to_owner_id, text) VALUES (?, ?, ?)`.
The `id` is one more than the largest id ever used (`AUTOINCREMENT`), the
`timestamp` column takes its default `CURRENT_TIMESTAMP` (the argument `now`)
and `is_read` takes its default `FALSE`. -/
def insertMessage (s : Store) (now : String) (fromAnonID toOwnerID : Int) (text : String) :
    Store :=
  let id := max s.messagesSeq (maxMessageID s.messages) + 1
  { s with
    messages := s.messages ++ [⟨id, fromAnonID, toOwnerID, text, now, false⟩]
    messagesSeq := id }

/-- Outcome of `db.Exec`: the statement either takes effect, or fails
(`err != nil`) and leaves the database as it was. -/
def exec (execOk : Bool) (after : Store) : Option Store :=
  if execOk then some after else none

/-! ## Updates, outbound messages and log lines -/

/-- What the loop reads from `update.Message` of the Telegram library:
`From.ID`, `Chat.ID`, `Text`, and the results of the accessors `IsCommand()`,
`Command()` and `CommandArguments()`. -/
structure TgMessage where
  FromID : Int
  ChatID : Int
  Text : String
  IsCommand : Bool
  Command : String
  CommandArguments : String
  deriving DecidableEq

/-- One element of the updates channel; `Message` may be `nil`. -/
structure Update where
  Message : Option TgMessage
  deriving DecidableEq

/-- What one iteration takes from its environment besides the update. -/
structure Env where
  /-- Result of `uuid.New().String()`. -/
  newUUID : String
  /-- Whether the query on `sessions` of this iteration runs without a failure
  of the call itself. -/
  sessionsScanOk : Bool
  /-- Whether the query on `users` of this iteration runs without a failure of
  the call itself. -/
  usersScanOk : Bool
  /-- Whether the `db.Exec` of this iteration succeeds. -/
  execOk : Bool
  /-- Value of `CURRENT_TIMESTAMP` when a message row is inserted. -/
  now : String
  deriving DecidableEq

/-- An inbound event: the update and the environment of its iteration. -/
structure Event where
  update : Update
  env : Env
  deriving DecidableEq

/-- Request built by `tgbotapi.NewMessage(chatID, text)` and passed to
`bot.Send`. -/
structure MessageConfig where
  ChatID : Int
  Text : String
  deriving DecidableEq

/-- The five `log.Printf` calls of the loop. -/
inductive LogLine where
  | errorSavingUser
  | errorSavingSession
  | errorFindingSession
  | errorFindingOwner
  | errorSavingMessage
  deriving DecidableEq

/-- Result of one iteration of the loop. -/
structure Outcome where
  store : Store
  sent : List MessageConfig
  logged : List LogLine
  deriving DecidableEq

/-- Text of the link message: `"Your unique link: " + fmt.Sprintf("t.me/%s?start=%s", ...)`. -/
def linkText (botUserName newUUID : String) : String :=
  "Your unique link: " ++ ("t.me/" ++ botUserName ++ "?start=" ++ newUUID)

/-- Text sent when the token of `/start <token>` is not found. -/
def invalidLinkText : String := "Invalid link."

/-- Text sent after a session was saved. -/
def sendPromptText : String := "Отправь анонимное сообщение:"

/-- Text sent when the sender has no session. -/
def startPromptText : String := "Пожалуйста начни с валидной ссылкой /start <unique_id>"

/-- Text forwarded to the owner. -/
def relayText (text : String) : String := "Тебе пришло сообщение: " ++ text

/-! ## The loop body -/

/-- One iteration of `for update := range updates` in `main`.
`botUserName` is `bot.Self.UserName`. -/
def handle (botUserName : String) (s : Store) (ev : Event) : Outcome :=
  match ev.update.Message with
  | none => ⟨s, [], []⟩
  | some m =>
    if m.IsCommand = true ∧ m.Command = "start" then
      let uniqueID := m.CommandArguments
      if uniqueID = "" then
        let newUUID := ev.env.newUUID
        match exec ev.env.execOk (insertOrReplaceUser s m.FromID newUUID) with
        | none => ⟨s, [], [LogLine.errorSavingUser]⟩
        | some s1 => ⟨s1, [⟨m.ChatID, linkText botUserName newUUID⟩], []⟩
      else
        match selectTelegramID ev.env.usersScanOk s uniqueID with
        | none => ⟨s, [⟨m.ChatID, invalidLinkText⟩], []⟩
        | some _ =>
          match exec ev.env.execOk (insertOrReplaceSession s m.FromID uniqueID) with
          | none => ⟨s, [], [LogLine.errorSavingSession]⟩
          | some s1 => ⟨s1, [⟨m.ChatID, sendPromptText⟩], []⟩
    else if m.Text ≠ "" then
      match selectUniqueID ev.env.sessionsScanOk s m.FromID with
      | none => ⟨s, [⟨m.ChatID, startPromptText⟩], [LogLine.errorFindingSession]⟩
      | some uniqueID =>
        match selectTelegramID ev.env.usersScanOk s uniqueID with
        | none => ⟨s, [], [LogLine.errorFindingOwner]⟩
        | some ownerID =>
          match exec ev.env.execOk
              (insertMessage s ev.env.now m.FromID ownerID m.Text) with
          | none => ⟨s, [], [LogLine.errorSavingMessage]⟩
          | some s1 => ⟨s1, [⟨ownerID, relayText m.Text⟩], []⟩
    else ⟨s, [], []⟩

/-- The store after the loop consumed the events `es` in order. -/
def run (botUserName : String) (s : Store) (es : List Event) : Store :=
  es.foldl (fun acc ev => (handle botUserName acc ev).store) s

/-- Store states the program can be in: those reached from the fresh database
by some finite sequence of events. -/
def Reachable (botUserName : String) (s : Store) : Prop :=
  ∃ es : List Event, run botUserName emptyStore es = s

/-! ## Event constructors used in the statements -/

/-- The update `/start` with no argument from `sender`, in chat `chat`. -/
def startEvent (sender chat : Int) (text : String) (env : Env) : Event :=
  ⟨⟨some ⟨sender, chat, text, true, "start", ""⟩⟩, env⟩

/-- The update `/start <token>` from `sender`, in chat `chat`. -/
def startWithEvent (sender chat : Int) (text token : String) (env : Env) : Event :=
  ⟨⟨some ⟨sender, chat, text, true, "start", token⟩⟩, env⟩

/-- A text update from `sender` that the loop does not treat as a `start`
command. -/
def textEvent (sender chat : Int) (text : String) (isCommand : Bool)
    (command arguments : String) (env : Env) : Event :=
  ⟨⟨some ⟨sender, chat, text, isCommand, command, arguments⟩⟩, env⟩

/-- The `users` row an event writes: the update is `/start` with no argument and
the `INSERT OR REPLACE INTO users` succeeds (the conditions of the first branch
of the loop body); `none` for every other event. -/
def issued (ev : Event) : Option User :=
  match ev.update.Message with
  | none => none
  | some m =>
    if m.IsCommand = true ∧ m.Command = "start" ∧ m.CommandArguments = ""
        ∧ ev.env.execOk = true then
      some ⟨m.FromID, ev.env.newUUID⟩
    else none

/-- The event is a `/start <token>` from `sender` whose token is found in
`users` of the store `s` it is handled in. -/
def sendsValidLink (sender : Int) (s : Store) (ev : Event) : Bool :=
  match ev.update.Message with
  | none => false
  | some m =>
    decide (m.IsCommand = true ∧ m.Command = "start" ∧ m.CommandArguments ≠ ""
      ∧ m.FromID = sender) && (lookupOwner s m.CommandArguments).isSome

/-- While the loop handles `es` starting from `s`, some event is a
`/start <token>` from `sender` whose token is in `users` at the time it is
handled. -/
def everSentValidLink (botUserName : String) (sender : Int) : Store → List Event → Bool
  | _, [] => false
  | s, ev :: es =>
    sendsValidLink sender s ev
      || everSentValidLink botUserName sender (handle botUserName s ev).store es

/-! ## Basic facts about the statements -/

theorem lookupOwner_eq_none_iff (s : Store) (t : String) :
    lookupOwner s t = none ↔ ∀ u ∈ s.users, u.UniqueID ≠ t := by
  simp [lookupOwner, List.find?_eq_none]

theorem lookupToken_eq_none_iff (s : Store) (a : Int) :
    lookupToken s a = none ↔ ∀ r ∈ s.sessions, r.AnonID ≠ a := by
  simp [lookupToken, List.find?_eq_none]

theorem selectTelegramID_of_lookup_none (scanOk : Bool) (s : Store) (t : String)
    (h : lookupOwner s t = none) : selectTelegramID scanOk s t = none := by
  cases scanOk <;> simp [selectTelegramID, h]

theorem selectUniqueID_of_lookup_none (scanOk : Bool) (s : Store) (a : Int)
    (h : lookupToken s a = none) : selectUniqueID scanOk s a = none := by
  cases scanOk <;> simp [selectUniqueID, h]

theorem lookupOwner_of_select (scanOk : Bool) (s : Store) (t : String) (o : Int)
    (h : selectTelegramID scanOk s t = some o) : lookupOwner s t = some o := by
  cases scanOk
  · simp [selectTelegramID] at h
  · exact h

theorem lookupToken_of_select (scanOk : Bool) (s : Store) (a : Int) (t : String)
    (h : selectUniqueID scanOk s a = some t) : lookupToken s a = some t := by
  cases scanOk
  · simp [selectUniqueID] at h
  · exact h

theorem handle_startWith_absent (bot : String) (s : Store) (sender chat : Int)
    (text t : String) (env : Env) (ht : t ≠ "")
    (h : selectTelegramID env.usersScanOk s t = none) :
    handle bot s (startWithEvent sender chat text t env)
      = ⟨s, [⟨chat, invalidLinkText⟩], []⟩ := by
  simp [handle, startWithEvent, ht, h]

theorem handle_startWith_present (bot : String) (s : Store) (sender chat : Int)
    (text t : String) (env : Env) (owner : Int) (ht : t ≠ "")
    (h : selectTelegramID env.usersScanOk s t = some owner) :
    handle bot s (startWithEvent sender chat text t env)
      = if env.execOk = true then
          ⟨insertOrReplaceSession s sender t, [⟨chat, sendPromptText⟩], []⟩
        else ⟨s, [], [LogLine.errorSavingSession]⟩ := by
  by_cases hok : env.execOk = true <;> simp [handle, startWithEvent, ht, h, exec, hok]

theorem handle_start (bot : String) (s : Store) (sender chat : Int) (text : String)
    (env : Env) :
    handle bot s (startEvent sender chat text env)
      = if env.execOk = true then
          ⟨insertOrReplaceUser s sender env.newUUID,
            [⟨chat, linkText bot env.newUUID⟩], []⟩
        else ⟨s, [], [LogLine.errorSavingUser]⟩ := by
  by_cases hok : env.execOk = true <;> simp [handle, startEvent, exec, hok]

theorem handle_text_no_session (bot : String) (s : Store) (sender chat : Int)
    (x : String) (isCommand : Bool) (command arguments : String) (env : Env)
    (hx : x ≠ "") (hcmd : ¬ (isCommand = true ∧ command = "start"))
    (h : selectUniqueID env.sessionsScanOk s sender = none) :
    handle bot s (textEvent sender chat x isCommand command arguments env)
      = ⟨s, [⟨chat, startPromptText⟩], [LogLine.errorFindingSession]⟩ := by
  simp only [handle, textEvent, if_neg hcmd, h]
  simp [hx]

theorem handle_text_no_owner (bot : String) (s : Store) (sender chat : Int)
    (x : String) (isCommand : Bool) (command arguments : String) (env : Env)
    (t : String) (hx : x ≠ "") (hcmd : ¬ (isCommand = true ∧ command = "start"))
    (hs : selectUniqueID env.sessionsScanOk s sender = some t)
    (ho : selectTelegramID env.usersScanOk s t = none) :
    handle bot s (textEvent sender chat x isCommand command arguments env)
      = ⟨s, [], [LogLine.errorFindingOwner]⟩ := by
  simp only [handle, textEvent, if_neg hcmd, hs, ho]
  simp [hx]

theorem handle_text_relay (bot : String) (s : Store) (sender chat : Int)
    (x : String) (isCommand : Bool) (command arguments : String) (env : Env)
    (t : String) (owner : Int) (hx : x ≠ "")
    (hcmd : ¬ (isCommand = true ∧ command = "start"))
    (hs : selectUniqueID env.sessionsScanOk s sender = some t)
    (ho : selectTelegramID env.usersScanOk s t = some owner) :
    handle bot s (textEvent sender chat x isCommand command arguments env)
      = if env.execOk = true then
          ⟨insertMessage s env.now sender owner x, [⟨owner, relayText x⟩], []⟩
        else ⟨s, [], [LogLine.errorSavingMessage]⟩ := by
  simp only [handle, textEvent, if_neg hcmd, hs, ho]
  by_cases hok : env.execOk = true <;> simp [hx, exec, hok]

/-! ## How one step changes `users` and `sessions` -/

theorem handle_users (bot : String) (s : Store) (ev : Event) :
    (handle bot s ev).store.users
      = match issued ev with
        | none => s.users
        | some u => (insertOrReplaceUser s u.TelegramID u.UniqueID).users := by
  rcases ev with ⟨⟨_ | m⟩, env⟩
  · rfl
  · by_cases hc : m.IsCommand = true ∧ m.Command = "start"
    · by_cases ha : m.CommandArguments = ""
      · by_cases hok : env.execOk = true
        · simp [handle, issued, hc, ha, hok, exec]
        · simp [handle, issued, hc, ha, hok, exec]
      · cases hsel : selectTelegramID env.usersScanOk s m.CommandArguments with
        | none => simp [handle, issued, hc, ha, hsel]
        | some o =>
          by_cases hok : env.execOk = true
          · simp [handle, issued, hc, ha, hsel, hok, exec, insertOrReplaceSession]
          · simp [handle, issued, hc, ha, hsel, hok, exec]
    · have hi : issued ⟨⟨some m⟩, env⟩ = none := by
        simp only [issued]
        rw [if_neg]
        exact fun h => hc ⟨h.1, h.2.1⟩
      rw [hi]
      simp only [handle, if_neg hc]
      by_cases hx : m.Text = ""
      · simp [hx]
      · cases hs : selectUniqueID env.sessionsScanOk s m.FromID with
        | none => simp [hx]
        | some t =>
          cases ho : selectTelegramID env.usersScanOk s t with
          | none => simp [hx, ho]
          | some o =>
            by_cases hok : env.execOk = true
            · simp [hx, ho, hok, exec, insertMessage]
            · simp [hx, ho, hok, exec]

theorem lookupOwner_congr (s1 s2 : Store) (h : s1.users = s2.users) (t : String) :
    lookupOwner s1 t = lookupOwner s2 t := by
  simp [lookupOwner, h]

theorem find_filter_append_ne (l : List Session) (a b : Int) (t : String) (hab : a ≠ b) :
    (l.filter (fun r : Session => decide (r.AnonID ≠ b)) ++ [(⟨b, t⟩ : Session)]).find?
        (fun r : Session => decide (r.AnonID = a))
      = l.find? (fun r : Session => decide (r.AnonID = a)) := by
  induction l with
  | nil =>
    rw [List.filter_nil, List.nil_append, List.find?_cons_of_neg]
    simpa using Ne.symm hab
  | cons r l ih =>
    rw [List.filter_cons]
    by_cases hb : r.AnonID = b
    · have hra : r.AnonID ≠ a := fun h => hab (h.symm.trans hb)
      rw [if_neg (by simpa using hb), ih, List.find?_cons_of_neg]
      simpa using hra
    · rw [if_pos (by simpa using hb), List.cons_append]
      by_cases hra : r.AnonID = a
      · rw [List.find?_cons_of_pos, List.find?_cons_of_pos] <;> simpa using hra
      · rw [List.find?_cons_of_neg, List.find?_cons_of_neg, ih] <;> simpa using hra

theorem lookupToken_insert_ne (s : Store) (a b : Int) (t : String) (hab : a ≠ b) :
    lookupToken (insertOrReplaceSession s b t) a = lookupToken s a := by
  simp only [lookupToken, insertOrReplaceSession]
  rw [find_filter_append_ne s.sessions a b t hab]

theorem find_filter_append_self (l : List Session) (a : Int) (t : String) :
    (l.filter (fun r : Session => decide (r.AnonID ≠ a)) ++ [(⟨a, t⟩ : Session)]).find?
        (fun r : Session => decide (r.AnonID = a)) = some ⟨a, t⟩ := by
  induction l with
  | nil =>
    rw [List.filter_nil, List.nil_append, List.find?_cons_of_pos]
    simp
  | cons r l ih =>
    rw [List.filter_cons]
    by_cases hr : r.AnonID = a
    · rw [if_neg (by simpa using hr), ih]
    · rw [if_pos (by simpa using hr), List.cons_append, List.find?_cons_of_neg, ih]
      simpa using hr

theorem lookupToken_insert_self (s : Store) (a : Int) (t : String) :
    lookupToken (insertOrReplaceSession s a t) a = some t := by
  simp only [lookupToken, insertOrReplaceSession]
  rw [find_filter_append_self s.sessions a t]
  rfl

theorem handle_lookupToken (bot : String) (s : Store) (ev : Event) (a : Int)
    (h : sendsValidLink a s ev = false) :
    lookupToken (handle bot s ev).store a = lookupToken s a := by
  rcases ev with ⟨⟨_ | m⟩, env⟩
  · rfl
  · by_cases hc : m.IsCommand = true ∧ m.Command = "start"
    · by_cases ha : m.CommandArguments = ""
      · by_cases hok : env.execOk = true
        · simp [handle, hc, ha, hok, exec, insertOrReplaceUser, lookupToken]
        · simp [handle, hc, ha, hok, exec]
      · cases hsel : selectTelegramID env.usersScanOk s m.CommandArguments with
        | none => simp [handle, hc, ha, hsel]
        | some o =>
          have hrow := lookupOwner_of_select _ s _ o hsel
          have hne : a ≠ m.FromID := by
            intro hEq
            simp [sendsValidLink, hc, ha, hrow, hEq] at h
          by_cases hok : env.execOk = true
          · simp only [handle, hc, ha, hsel, hok, exec]
            simp only [and_self, if_true, if_false]
            exact lookupToken_insert_ne s a m.FromID m.CommandArguments hne
          · simp [handle, hc, ha, hsel, hok, exec]
    · simp only [handle, if_neg hc]
      by_cases hx : m.Text = ""
      · simp [hx]
      · cases hs : selectUniqueID env.sessionsScanOk s m.FromID with
        | none => simp [hx]
        | some t =>
          cases ho : selectTelegramID env.usersScanOk s t with
          | none => simp [hx, ho]
          | some o =>
            by_cases hok : env.execOk = true
            · simp [hx, ho, hok, exec, insertMessage, lookupToken]
            · simp [hx, ho, hok, exec]

theorem run_nil (bot : String) (s : Store) : run bot s [] = s := rfl

theorem run_cons (bot : String) (s : Store) (ev : Event) (es : List Event) :
    run bot s (ev :: es) = run bot (handle bot s ev).store es := rfl

theorem run_lookupToken (bot : String) (a : Int) (es : List Event) :
    ∀ s : Store, everSentValidLink bot a s es = false →
      lookupToken (run bot s es) a = lookupToken s a := by
  induction es with
  | nil => intro s _; rfl
  | cons ev es ih =>
    intro s h
    simp only [everSentValidLink, Bool.or_eq_false_iff] at h
    rw [run_cons, ih _ h.2, handle_lookupToken bot s ev a h.1]

theorem insertOrReplaceUser_nodup (s : Store) (a : Int) (t : String)
    (h1 : (s.users.map User.TelegramID).Nodup) (h2 : (s.users.map User.UniqueID).Nodup) :
    ((insertOrReplaceUser s a t).users.map User.TelegramID).Nodup
      ∧ ((insertOrReplaceUser s a t).users.map User.UniqueID).Nodup := by
  have hsub : (s.users.filter
      (fun u => decide (u.TelegramID ≠ a ∧ u.UniqueID ≠ t))).Sublist s.users :=
    List.filter_sublist _
  constructor
  · simp only [insertOrReplaceUser, List.map_append, List.map_cons, List.map_nil]
    refine List.nodup_append.2 ⟨(hsub.map _).nodup h1, List.nodup_singleton _, ?_⟩
    intro x hx hx2
    rcases List.mem_map.1 hx with ⟨u, hu, rfl⟩
    have hp := (List.mem_filter.1 hu).2
    simp only [List.mem_singleton] at hx2
    simp [hx2] at hp
  · simp only [insertOrReplaceUser, List.map_append, List.map_cons, List.map_nil]
    refine List.nodup_append.2 ⟨(hsub.map _).nodup h2, List.nodup_singleton _, ?_⟩
    intro x hx hx2
    rcases List.mem_map.1 hx with ⟨u, hu, rfl⟩
    have hp := (List.mem_filter.1 hu).2
    simp only [List.mem_singleton] at hx2
    simp [hx2] at hp

theorem handle_users_nodup (bot : String) (s : Store) (ev : Event)
    (h1 : (s.users.map User.TelegramID).Nodup) (h2 : (s.users.map User.UniqueID).Nodup) :
    ((handle bot s ev).store.users.map User.TelegramID).Nodup
      ∧ ((handle bot s ev).store.users.map User.UniqueID).Nodup := by
  rw [handle_users]
  cases issued ev with
  | none => exact ⟨h1, h2⟩
  | some u => exact insertOrReplaceUser_nodup s u.TelegramID u.UniqueID h1 h2

theorem run_users_nodup (bot : String) (es : List Event) :
    ∀ s : Store, (s.users.map User.TelegramID).Nodup → (s.users.map User.UniqueID).Nodup →
      ((run bot s es).users.map User.TelegramID).Nodup
        ∧ ((run bot s es).users.map User.UniqueID).Nodup := by
  induction es with
  | nil => intro s h1 h2; exact ⟨h1, h2⟩
  | cons ev es ih =>
    intro s h1 h2
    rw [run_cons]
    exact ih _ (handle_users_nodup bot s ev h1 h2).1 (handle_users_nodup bot s ev h1 h2).2

theorem mem_insertOrReplaceUser (s : Store) (a : Int) (t : String) (r : User) :
    r ∈ (insertOrReplaceUser s a t).users
      ↔ r = ⟨a, t⟩ ∨ (r ∈ s.users ∧ r.TelegramID ≠ a ∧ r.UniqueID ≠ t) := by
  simp only [insertOrReplaceUser, List.mem_append, List.mem_filter, List.mem_singleton,
    decide_eq_true_eq]
  tauto

theorem run_token_holder (bot : String) (tok : String) (owner : Int) (es : List Event) :
    ∀ s : Store, (∀ r ∈ s.users, r.UniqueID = tok → r.TelegramID = owner) →
      (∀ ev ∈ es, ∀ u, issued ev = some u → u.UniqueID = tok → u.TelegramID = owner) →
      ∀ r ∈ (run bot s es).users, r.UniqueID = tok → r.TelegramID = owner := by
  induction es with
  | nil => intro s hs _; exact hs
  | cons ev es ih =>
    intro s hs hes
    rw [run_cons]
    refine ih _ ?_ (fun e he => hes e (List.mem_cons_of_mem _ he))
    intro r hr hrt
    rw [handle_users] at hr
    cases hi : issued ev with
    | none =>
      rw [hi] at hr
      exact hs r hr hrt
    | some u =>
      rw [hi] at hr
      rcases (mem_insertOrReplaceUser s u.TelegramID u.UniqueID r).1 hr with h | h
      · subst h
        exact hes ev (List.mem_cons_self _ _) u hi hrt
      · exact hs r h.1 hrt

theorem filter_owner_insertOrReplaceUser (s : Store) (a : Int) (t : String) :
    (insertOrReplaceUser s a t).users.filter (fun u => decide (u.TelegramID = a))
      = [⟨a, t⟩] := by
  simp only [insertOrReplaceUser, List.filter_append, List.filter_filter]
  have h1 : s.users.filter (fun u => decide (u.TelegramID = a)
      && decide (u.TelegramID ≠ a ∧ u.UniqueID ≠ t)) = [] := by
    rw [List.filter_eq_nil_iff]
    intro u _
    by_cases h : u.TelegramID = a <;> simp [h]
  rw [h1, List.nil_append, List.filter_cons_of_pos, List.filter_nil]
  simp

theorem filter_sender_insertOrReplaceSession (s : Store) (a : Int) (t : String) :
    (insertOrReplaceSession s a t).sessions.filter (fun r => decide (r.AnonID = a))
      = [⟨a, t⟩] := by
  simp only [insertOrReplaceSession, List.filter_append, List.filter_filter]
  have h1 : s.sessions.filter (fun r => decide (r.AnonID = a)
      && decide (r.AnonID ≠ a)) = [] := by
    rw [List.filter_eq_nil_iff]
    intro r _
    by_cases h : r.AnonID = a <;> simp [h]
  rw [h1, List.nil_append, List.filter_cons_of_pos, List.filter_nil]
  simp

theorem handle_text_bound (bot : String) (s : Store) (sender chat : Int)
    (x : String) (isCommand : Bool) (command arguments : String) (env : Env)
    (t : String) (owner : Int) (hx : x ≠ "")
    (hcmd : ¬ (isCommand = true ∧ command = "start"))
    (hs : lookupToken s sender = some t) (ho : lookupOwner s t = some owner) :
    handle bot s (textEvent sender chat x isCommand command arguments env)
      = if env.sessionsScanOk = true then
          if env.usersScanOk = true then
            if env.execOk = true then
              ⟨insertMessage s env.now sender owner x, [⟨owner, relayText x⟩], []⟩
            else ⟨s, [], [LogLine.errorSavingMessage]⟩
          else ⟨s, [], [LogLine.errorFindingOwner]⟩
        else ⟨s, [⟨chat, startPromptText⟩], [LogLine.errorFindingSession]⟩ := by
  by_cases hq : env.sessionsScanOk = true
  · have hs1 : selectUniqueID env.sessionsScanOk s sender = some t := by
      rw [hq]; exact hs
    by_cases hu : env.usersScanOk = true
    · have ho1 : selectTelegramID env.usersScanOk s t = some owner := by
        rw [hu]; exact ho
      rw [if_pos hq, if_pos hu]
      exact handle_text_relay bot s sender chat x isCommand command arguments env t owner
        hx hcmd hs1 ho1
    · have ho1 : selectTelegramID env.usersScanOk s t = none := by
        simp [selectTelegramID, hu]
      rw [if_pos hq, if_neg hu]
      exact handle_text_no_owner bot s sender chat x isCommand command arguments env t
        hx hcmd hs1 ho1
  · have hs1 : selectUniqueID env.sessionsScanOk s sender = none := by
      simp [selectUniqueID, hq]
    rw [if_neg hq]
    exact handle_text_no_session bot s sender chat x isCommand command arguments env
      hx hcmd hs1

theorem handle_text_dead_token (bot : String) (s : Store) (sender chat : Int)
    (x : String) (isCommand : Bool) (command arguments : String) (env : Env)
    (t : String) (hx : x ≠ "") (hcmd : ¬ (isCommand = true ∧ command = "start"))
    (hs : lookupToken s sender = some t) (ho : lookupOwner s t = none) :
    handle bot s (textEvent sender chat x isCommand command arguments env)
      = if env.sessionsScanOk = true then ⟨s, [], [LogLine.errorFindingOwner]⟩
        else ⟨s, [⟨chat, startPromptText⟩], [LogLine.errorFindingSession]⟩ := by
  by_cases hq : env.sessionsScanOk = true
  · have hs1 : selectUniqueID env.sessionsScanOk s sender = some t := by
      rw [hq]; exact hs
    rw [if_pos hq]
    exact handle_text_no_owner bot s sender chat x isCommand command arguments env t
      hx hcmd hs1 (selectTelegramID_of_lookup_none _ s t ho)
  · have hs1 : selectUniqueID env.sessionsScanOk s sender = none := by
      simp [selectUniqueID, hq]
    rw [if_neg hq]
    exact handle_text_no_session bot s sender chat x isCommand command arguments env
      hx hcmd hs1

/-! ## Single-step properties -/

/-- C1: for every store, sender, chat and non-empty token that is the
`unique_id` of no `users` row, handling `/start <token>` returns the store
unchanged (users, sessions and messages alike) and sends exactly one message,
the text "Invalid link." to the sender's chat. -/
theorem start_unknown_token_rejected (bot : String) (s : Store) (sender chat : Int)
    (text t : String) (env : Env) (ht : t ≠ "")
    (habsent : ∀ u ∈ s.users, u.UniqueID ≠ t) :
    (handle bot s (startWithEvent sender chat text t env)).store = s
      ∧ (handle bot s (startWithEvent sender chat text t env)).sent
          = [⟨chat, "Invalid link."⟩] := by
  rw [handle_startWith_absent bot s sender chat text t env ht
    (selectTelegramID_of_lookup_none _ s t ((lookupOwner_eq_none_iff s t).2 habsent))]
  exact ⟨rfl, rfl⟩

/-- Witness for C1: with one owner holding token "T1", sender 2 opening the
link "bad" gets "Invalid link." and the store is untouched. -/
theorem start_unknown_token_rejected_witness :
    (handle "bot" ⟨[⟨1, "T1"⟩], [], 0, [⟨2, "T1"⟩]⟩
        (startWithEvent 2 20 "/start bad" "bad" ⟨"u", true, true, true, "now"⟩)).store
        = ⟨[⟨1, "T1"⟩], [], 0, [⟨2, "T1"⟩]⟩
      ∧ (handle "bot" ⟨[⟨1, "T1"⟩], [], 0, [⟨2, "T1"⟩]⟩
        (startWithEvent 2 20 "/start bad" "bad" ⟨"u", true, true, true, "now"⟩)).sent
        = [⟨20, "Invalid link."⟩] :=
  start_unknown_token_rejected "bot" ⟨[⟨1, "T1"⟩], [], 0, [⟨2, "T1"⟩]⟩ 2 20
    "/start bad" "bad" ⟨"u", true, true, true, "now"⟩ (by decide) (by decide)

/-- C2, as stated, fails: `sessions` maps sender 2 to "T1", `users` maps "T1"
to owner 1 and the insert would succeed, but the query on `sessions` fails.
The text "hello" from sender 2 is answered with the start prompt; no `messages`
row is appended and nothing is sent to owner 1. -/
theorem relay_dropped_when_lookup_fails :
    lookupToken ⟨[⟨1, "T1"⟩], [], 0, [⟨2, "T1"⟩]⟩ 2 = some "T1"
      ∧ lookupOwner ⟨[⟨1, "T1"⟩], [], 0, [⟨2, "T1"⟩]⟩ "T1" = some 1
      ∧ (⟨"u", false, true, true, "now"⟩ : Env).execOk = true
      ∧ (handle "bot" ⟨[⟨1, "T1"⟩], [], 0, [⟨2, "T1"⟩]⟩
          (textEvent 2 20 "hello" false "" "" ⟨"u", false, true, true, "now"⟩)).store.messages
          = []
      ∧ (handle "bot" ⟨[⟨1, "T1"⟩], [], 0, [⟨2, "T1"⟩]⟩
          (textEvent 2 20 "hello" false "" "" ⟨"u", false, true, true, "now"⟩)).sent
          = [⟨20, "Пожалуйста начни с валидной ссылкой /start <unique_id>"⟩]
      ∧ (handle "bot" ⟨[⟨1, "T1"⟩], [], 0, [⟨2, "T1"⟩]⟩
          (textEvent 2 20 "hello" false "" "" ⟨"u", false, true, true, "now"⟩)).sent
          ≠ [⟨1, "Тебе пришло сообщение: " ++ "hello"⟩] := by
  decide

/-- C2, amended: when `sessions` maps the sender to token `t`, `users` maps `t`
to `owner`, the text `x` is non-empty and not a `start` command, and both
queries and the insert succeed, the step appends exactly one row to `messages`
carrying the sender, the owner, `x` and `is_read = false`, keeps all earlier
rows, leaves `users` and `sessions` unchanged, and sends exactly one message:
to the owner, with text "Тебе пришло сообщение: " followed by `x`. -/
theorem relay_persists_and_forwards (bot : String) (s : Store) (sender chat : Int)
    (x : String) (isCommand : Bool) (command arguments : String) (env : Env)
    (t : String) (owner : Int) (hx : x ≠ "")
    (hcmd : ¬ (isCommand = true ∧ command = "start"))
    (hs : lookupToken s sender = some t) (ho : lookupOwner s t = some owner)
    (hqs : env.sessionsScanOk = true) (hqu : env.usersScanOk = true)
    (hok : env.execOk = true) :
    (handle bot s (textEvent sender chat x isCommand command arguments env)).store.messages
        = s.messages ++
            [⟨max s.messagesSeq (maxMessageID s.messages) + 1, sender, owner, x,
              env.now, false⟩]
      ∧ (handle bot s (textEvent sender chat x isCommand command arguments env)).store.users
        = s.users
      ∧ (handle bot s (textEvent sender chat x isCommand command arguments env)).store.sessions
        = s.sessions
      ∧ (handle bot s (textEvent sender chat x isCommand command arguments env)).sent
        = [⟨owner, "Тебе пришло сообщение: " ++ x⟩] := by
  rw [handle_text_bound bot s sender chat x isCommand command arguments env t owner
    hx hcmd hs ho, if_pos hqs, if_pos hqu, if_pos hok]
  exact ⟨rfl, rfl, rfl, rfl⟩

/-- Witness for C2 (amended): sender 2, bound to token "T1" of owner 1, sends
"hello". -/
theorem relay_persists_and_forwards_witness :
    (handle "bot" ⟨[⟨1, "T1"⟩], [], 0, [⟨2, "T1"⟩]⟩
        (textEvent 2 20 "hello" false "" "" ⟨"u", true, true, true, "now"⟩)).store.messages
        = [] ++ [⟨max 0 (maxMessageID []) + 1, 2, 1, "hello", "now", false⟩]
      ∧ (handle "bot" ⟨[⟨1, "T1"⟩], [], 0, [⟨2, "T1"⟩]⟩
        (textEvent 2 20 "hello" false "" "" ⟨"u", true, true, true, "now"⟩)).store.users
        = [⟨1, "T1"⟩]
      ∧ (handle "bot" ⟨[⟨1, "T1"⟩], [], 0, [⟨2, "T1"⟩]⟩
        (textEvent 2 20 "hello" false "" "" ⟨"u", true, true, true, "now"⟩)).store.sessions
        = [⟨2, "T1"⟩]
      ∧ (handle "bot" ⟨[⟨1, "T1"⟩], [], 0, [⟨2, "T1"⟩]⟩
        (textEvent 2 20 "hello" false "" "" ⟨"u", true, true, true, "now"⟩)).sent
        = [⟨1, "Тебе пришло сообщение: " ++ "hello"⟩] :=
  relay_persists_and_forwards "bot" ⟨[⟨1, "T1"⟩], [], 0, [⟨2, "T1"⟩]⟩ 2 20 "hello"
    false "" "" ⟨"u", true, true, true, "now"⟩ "T1" 1 (by decide) (by decide) (by decide)
    (by decide) rfl rfl rfl

/-- C6: what the owner receives does not depend on the sender.  If the queries
on `sessions` for `a` and for `b` both yield the same token `t`, and `t`
belongs to `owner`, then the same text `x` sent by `a` and by `b` (from any
chats, at any times, with the same outcome of the query on `users` and of the
insert) produces the same list of outbound messages; when `x` is non-empty and
the query and the insert succeed that list is the single message
"Тебе пришло сообщение: " followed by `x`, addressed to `owner`, in which
neither sender occurs. -/
theorem relay_outbound_hides_sender (bot : String) (s : Store) (a b chatA chatB : Int)
    (x : String) (isCommandA isCommandB : Bool) (commandA commandB argsA argsB : String)
    (envA envB : Env) (t : String) (owner : Int)
    (hcmdA : ¬ (isCommandA = true ∧ commandA = "start"))
    (hcmdB : ¬ (isCommandB = true ∧ commandB = "start"))
    (hsA : selectUniqueID envA.sessionsScanOk s a = some t)
    (hsB : selectUniqueID envB.sessionsScanOk s b = some t)
    (ho : lookupOwner s t = some owner)
    (hscan : envA.usersScanOk = envB.usersScanOk)
    (hexec : envA.execOk = envB.execOk) :
    (handle bot s (textEvent a chatA x isCommandA commandA argsA envA)).sent
        = (handle bot s (textEvent b chatB x isCommandB commandB argsB envB)).sent
      ∧ (x ≠ "" → envA.usersScanOk = true → envA.execOk = true →
          (handle bot s (textEvent a chatA x isCommandA commandA argsA envA)).sent
            = [⟨owner, "Тебе пришло сообщение: " ++ x⟩]) := by
  by_cases hx : x = ""
  · refine ⟨?_, fun h => absurd hx h⟩
    simp [handle, textEvent, hcmdA, hcmdB, hx]
  · have hqA : envA.sessionsScanOk = true := by
      cases h : envA.sessionsScanOk
      · rw [h] at hsA; simp [selectUniqueID] at hsA
      · rfl
    have hqB : envB.sessionsScanOk = true := by
      cases h : envB.sessionsScanOk
      · rw [h] at hsB; simp [selectUniqueID] at hsB
      · rfl
    rw [handle_text_bound bot s a chatA x isCommandA commandA argsA envA t owner hx hcmdA
        (lookupToken_of_select _ s a t hsA) ho,
      handle_text_bound bot s b chatB x isCommandB commandB argsB envB t owner hx hcmdB
        (lookupToken_of_select _ s b t hsB) ho, ← hexec, ← hscan, if_pos hqA, if_pos hqB]
    by_cases hu : envA.usersScanOk = true
    · by_cases hok : envA.execOk = true
      · simp [hu, hok, relayText]
      · simp [hu, hok]
    · simp [hu]

/-- Witness for C6: senders 2 and 3 are both bound to token "T1" of owner 1
and both send "hi". -/
theorem relay_outbound_hides_sender_witness :
    (handle "bot" ⟨[⟨1, "T1"⟩], [], 0, [⟨2, "T1"⟩, ⟨3, "T1"⟩]⟩
        (textEvent 2 20 "hi" false "" "" ⟨"u", true, true, true, "now"⟩)).sent
        = (handle "bot" ⟨[⟨1, "T1"⟩], [], 0, [⟨2, "T1"⟩, ⟨3, "T1"⟩]⟩
        (textEvent 3 30 "hi" false "" "" ⟨"v", true, true, true, "later"⟩)).sent
      ∧ (handle "bot" ⟨[⟨1, "T1"⟩], [], 0, [⟨2, "T1"⟩, ⟨3, "T1"⟩]⟩
            (textEvent 2 20 "hi" false "" "" ⟨"u", true, true, true, "now"⟩)).sent
            = [⟨1, "Тебе пришло сообщение: " ++ "hi"⟩] :=
  ⟨(relay_outbound_hides_sender "bot" ⟨[⟨1, "T1"⟩], [], 0, [⟨2, "T1"⟩, ⟨3, "T1"⟩]⟩ 2 3 20 30
      "hi" false false "" "" "" "" ⟨"u", true, true, true, "now"⟩
      ⟨"v", true, true, true, "later"⟩ "T1" 1
      (by decide) (by decide) (by decide) (by decide) (by decide) rfl rfl).1,
   (relay_outbound_hides_sender "bot" ⟨[⟨1, "T1"⟩], [], 0, [⟨2, "T1"⟩, ⟨3, "T1"⟩]⟩ 2 3 20 30
      "hi" false false "" "" "" "" ⟨"u", true, true, true, "now"⟩
      ⟨"v", true, true, true, "later"⟩ "T1" 1
      (by decide) (by decide) (by decide) (by decide) (by decide) rfl rfl).2
      (by decide) rfl rfl⟩

/-- C7, as stated, fails: owner 1 issues "T1", sender 2 binds to it, owner 1
issues "T2".  Sender 2 still has a session, its token has no `users` row, and
the text "hello" from sender 2 is answered with nothing at all, not with the
start prompt. -/
theorem owner_lookup_failure_sends_no_prompt :
    selectUniqueID true
        (run "bot" emptyStore
          [startEvent 1 10 "/start" ⟨"T1", true, true, true, "now"⟩,
           startWithEvent 2 20 "/start T1" "T1" ⟨"u", true, true, true, "now"⟩,
           startEvent 1 10 "/start" ⟨"T2", true, true, true, "now"⟩]) 2 = some "T1"
      ∧ selectTelegramID true
        (run "bot" emptyStore
          [startEvent 1 10 "/start" ⟨"T1", true, true, true, "now"⟩,
           startWithEvent 2 20 "/start T1" "T1" ⟨"u", true, true, true, "now"⟩,
           startEvent 1 10 "/start" ⟨"T2", true, true, true, "now"⟩]) "T1" = none
      ∧ (handle "bot"
        (run "bot" emptyStore
          [startEvent 1 10 "/start" ⟨"T1", true, true, true, "now"⟩,
           startWithEvent 2 20 "/start T1" "T1" ⟨"u", true, true, true, "now"⟩,
           startEvent 1 10 "/start" ⟨"T2", true, true, true, "now"⟩])
        (textEvent 2 20 "hello" false "" "" ⟨"u", true, true, true, "now"⟩)).sent = []
      ∧ (handle "bot"
        (run "bot" emptyStore
          [startEvent 1 10 "/start" ⟨"T1", true, true, true, "now"⟩,
           startWithEvent 2 20 "/start T1" "T1" ⟨"u", true, true, true, "now"⟩,
           startEvent 1 10 "/start" ⟨"T2", true, true, true, "now"⟩])
        (textEvent 2 20 "hello" false "" "" ⟨"u", true, true, true, "now"⟩)).sent
          ≠ [⟨20, "Пожалуйста начни с валидной ссылкой /start <unique_id>"⟩] := by
  decide

/-- C7, amended: for a non-empty text that is not a `start` command, both
lookup failures leave the store unchanged (no `messages` row, `users` and
`sessions` as before) and send nothing to any owner, but they differ in what
the sender gets.  When the query on `sessions` yields no row for the sender,
exactly one message is sent: the start prompt, to the sender's chat.  When the
query on `users` yields no row for the session's token, nothing is sent at
all; the failure is only logged. -/
theorem lookup_failures_keep_store (bot : String) (s : Store) (sender chat : Int)
    (x : String) (isCommand : Bool) (command arguments : String) (env : Env)
    (hx : x ≠ "") (hcmd : ¬ (isCommand = true ∧ command = "start")) :
    (selectUniqueID env.sessionsScanOk s sender = none →
        handle bot s (textEvent sender chat x isCommand command arguments env)
          = ⟨s, [⟨chat, "Пожалуйста начни с валидной ссылкой /start <unique_id>"⟩],
              [LogLine.errorFindingSession]⟩)
      ∧ (∀ t, selectUniqueID env.sessionsScanOk s sender = some t →
        selectTelegramID env.usersScanOk s t = none →
        handle bot s (textEvent sender chat x isCommand command arguments env)
          = ⟨s, [], [LogLine.errorFindingOwner]⟩) :=
  ⟨fun h => handle_text_no_session bot s sender chat x isCommand command arguments env
      hx hcmd h,
   fun t hs ho => handle_text_no_owner bot s sender chat x isCommand command arguments
      env t hx hcmd hs ho⟩

/-- Witness for C7 (amended): sender 5 has no session; sender 2 has a session
whose token "T1" has no `users` row. -/
theorem lookup_failures_keep_store_witness :
    handle "bot" ⟨[⟨1, "T2"⟩], [], 0, [⟨2, "T1"⟩]⟩
        (textEvent 5 50 "hello" false "" "" ⟨"u", true, true, true, "now"⟩)
        = ⟨⟨[⟨1, "T2"⟩], [], 0, [⟨2, "T1"⟩]⟩,
            [⟨50, "Пожалуйста начни с валидной ссылкой /start <unique_id>"⟩],
            [LogLine.errorFindingSession]⟩
      ∧ handle "bot" ⟨[⟨1, "T2"⟩], [], 0, [⟨2, "T1"⟩]⟩
        (textEvent 2 20 "hello" false "" "" ⟨"u", true, true, true, "now"⟩)
        = ⟨⟨[⟨1, "T2"⟩], [], 0, [⟨2, "T1"⟩]⟩, [], [LogLine.errorFindingOwner]⟩ :=
  ⟨(lookup_failures_keep_store "bot" ⟨[⟨1, "T2"⟩], [], 0, [⟨2, "T1"⟩]⟩ 5 50 "hello"
      false "" "" ⟨"u", true, true, true, "now"⟩ (by decide) (by decide)).1 (by decide),
   (lookup_failures_keep_store "bot" ⟨[⟨1, "T2"⟩], [], 0, [⟨2, "T1"⟩]⟩ 2 20 "hello"
      false "" "" ⟨"u", true, true, true, "now"⟩ (by decide) (by decide)).2 "T1"
      (by decide) (by decide)⟩

/-! ## Properties of runs -/

/-- C3: start from the empty store and handle any finite sequence of events.
If no event of the sequence is a `/start <token>` from `sender` whose token was
in `users` when it was handled, then `sessions` has no row for `sender`, and
every non-empty text from `sender` is answered with exactly one message, the
start prompt to the sender's chat, while the store stays as it is (no
`messages` row, nothing relayed). -/
theorem unbound_sender_gets_start_prompt (bot : String) (es : List Event) (sender : Int)
    (hnever : everSentValidLink bot sender emptyStore es = false) :
    (∀ r ∈ (run bot emptyStore es).sessions, r.AnonID ≠ sender)
      ∧ ∀ (chat : Int) (x : String) (isCommand : Bool) (command arguments : String)
          (env : Env), x ≠ "" → ¬ (isCommand = true ∧ command = "start") →
          handle bot (run bot emptyStore es)
              (textEvent sender chat x isCommand command arguments env)
            = ⟨run bot emptyStore es,
                [⟨chat, "Пожалуйста начни с валидной ссылкой /start <unique_id>"⟩],
                [LogLine.errorFindingSession]⟩ := by
  have hnone : lookupToken (run bot emptyStore es) sender = none := by
    rw [run_lookupToken bot sender es emptyStore hnever]
    rfl
  refine ⟨(lookupToken_eq_none_iff _ _).1 hnone, ?_⟩
  intro chat x isCommand command arguments env hx hcmd
  exact handle_text_no_session bot _ sender chat x isCommand command arguments env hx hcmd
    (selectUniqueID_of_lookup_none _ _ sender hnone)

/-- Witness for C3: owner 1 issues "T1", sender 2 tries the unknown token
"bad", sender 3 binds to "T1"; sender 2 then sends "hi". -/
theorem unbound_sender_gets_start_prompt_witness :
    handle "bot"
        (run "bot" emptyStore
          [startEvent 1 10 "/start" ⟨"T1", true, true, true, "now"⟩,
           startWithEvent 2 20 "/start bad" "bad" ⟨"u", true, true, true, "now"⟩,
           startWithEvent 3 30 "/start T1" "T1" ⟨"u", true, true, true, "now"⟩])
        (textEvent 2 20 "hi" false "" "" ⟨"u", true, true, true, "now"⟩)
      = ⟨run "bot" emptyStore
          [startEvent 1 10 "/start" ⟨"T1", true, true, true, "now"⟩,
           startWithEvent 2 20 "/start bad" "bad" ⟨"u", true, true, true, "now"⟩,
           startWithEvent 3 30 "/start T1" "T1" ⟨"u", true, true, true, "now"⟩],
          [⟨20, "Пожалуйста начни с валидной ссылкой /start <unique_id>"⟩],
          [LogLine.errorFindingSession]⟩ :=
  (unbound_sender_gets_start_prompt "bot"
      [startEvent 1 10 "/start" ⟨"T1", true, true, true, "now"⟩,
       startWithEvent 2 20 "/start bad" "bad" ⟨"u", true, true, true, "now"⟩,
       startWithEvent 3 30 "/start T1" "T1" ⟨"u", true, true, true, "now"⟩] 2
      (by decide)).2
    20 "hi" false "" "" ⟨"u", true, true, true, "now"⟩ (by decide) (by decide)

/-- C8: in every store reachable from the empty one, whatever tokens were
generated along the way, no two `users` rows share a `telegram_id` and no two
share a `unique_id`. -/
theorem reachable_users_keys_unique (bot : String) (s : Store) (h : Reachable bot s) :
    (s.users.map User.TelegramID).Nodup ∧ (s.users.map User.UniqueID).Nodup := by
  rcases h with ⟨es, rfl⟩
  exact run_users_nodup bot es emptyStore List.nodup_nil List.nodup_nil

/-- Witness for C8: owner 1 is issued "T1", then owner 2 is issued the same
token "T1" (which removes the row of owner 1), then owner 1 is issued "T2". -/
theorem reachable_users_keys_unique_witness :
    (List.map User.TelegramID [(⟨2, "T1"⟩ : User), ⟨1, "T2"⟩]).Nodup
      ∧ (List.map User.UniqueID [(⟨2, "T1"⟩ : User), ⟨1, "T2"⟩]).Nodup :=
  reachable_users_keys_unique "bot" ⟨[⟨2, "T1"⟩, ⟨1, "T2"⟩], [], 0, []⟩
    ⟨[startEvent 1 10 "/start" ⟨"T1", true, true, true, "now"⟩,
      startEvent 2 20 "/start" ⟨"T1", true, true, true, "now"⟩,
      startEvent 1 10 "/start" ⟨"T2", true, true, true, "now"⟩], by decide⟩

/-- C9 fails on the code: the store reached when owner 1 is issued "T1",
sender 2 opens the link "T1", and owner 1 is issued "T2" holds the `sessions`
row (2, "T1") although no `users` row has `unique_id` "T1". -/
theorem reissue_leaves_orphaned_session :
    Reachable "bot" ⟨[⟨1, "T2"⟩], [], 0, [⟨2, "T1"⟩]⟩
      ∧ (⟨2, "T1"⟩ : Session) ∈ (⟨[⟨1, "T2"⟩], [], 0, [⟨2, "T1"⟩]⟩ : Store).sessions
      ∧ ∀ u ∈ (⟨[⟨1, "T2"⟩], [], 0, [⟨2, "T1"⟩]⟩ : Store).users, u.UniqueID ≠ "T1" :=
  ⟨⟨[startEvent 1 10 "/start" ⟨"T1", true, true, true, "now"⟩,
      startWithEvent 2 20 "/start T1" "T1" ⟨"u", true, true, true, "now"⟩,
      startEvent 1 10 "/start" ⟨"T2", true, true, true, "now"⟩], by decide⟩,
    by decide, by decide⟩

/-- C10, as stated, fails: in the reachable store where owner 1 holds "T1", a
second `/start` from owner 1 that generates "T2" removes the row (1, "T1"). -/
theorem reissue_deletes_users_row :
    Reachable "bot" ⟨[⟨1, "T1"⟩], [], 0, []⟩
      ∧ ¬ (∀ r ∈ (⟨[⟨1, "T1"⟩], [], 0, []⟩ : Store).users,
            r ∈ (handle "bot" ⟨[⟨1, "T1"⟩], [], 0, []⟩
              (startEvent 1 10 "/start" ⟨"T2", true, true, true, "now"⟩)).store.users) :=
  ⟨⟨[startEvent 1 10 "/start" ⟨"T1", true, true, true, "now"⟩], by decide⟩, by decide⟩

/-- C10, amended: an event that is not a successful `/start` with no argument
leaves `users` exactly as it was.  A successful `/start` with no argument from
`u.TelegramID` generating `u.UniqueID` makes `users` consist of the new row `u`
together with the earlier rows that have neither the sender's `telegram_id` nor
the generated `unique_id`; the earlier rows that have one of them are
deleted. -/
theorem users_rows_change_only_on_issue (bot : String) (s : Store) (ev : Event) :
    (issued ev = none → (handle bot s ev).store.users = s.users)
      ∧ (∀ u, issued ev = some u → ∀ r, r ∈ (handle bot s ev).store.users
          ↔ r = u ∨ (r ∈ s.users ∧ r.TelegramID ≠ u.TelegramID ∧ r.UniqueID ≠ u.UniqueID)) := by
  constructor
  · intro h
    rw [handle_users, h]
  · intro u h r
    rw [handle_users, h]
    exact mem_insertOrReplaceUser s u.TelegramID u.UniqueID r

/-- Witness for C10 (amended): with rows (1, "T1") and (2, "T2"), a text
message changes nothing, and owner 1 being issued "T3" keeps (2, "T2") and
adds (1, "T3"). -/
theorem users_rows_change_only_on_issue_witness :
    (handle "bot" ⟨[⟨1, "T1"⟩, ⟨2, "T2"⟩], [], 0, []⟩
        (textEvent 5 50 "hello" false "" "" ⟨"u", true, true, true, "now"⟩)).store.users
        = [⟨1, "T1"⟩, ⟨2, "T2"⟩]
      ∧ (⟨2, "T2"⟩ : User) ∈ (handle "bot" ⟨[⟨1, "T1"⟩, ⟨2, "T2"⟩], [], 0, []⟩
            (startEvent 1 10 "/start" ⟨"T3", true, true, true, "now"⟩)).store.users
      ∧ (⟨1, "T3"⟩ : User) ∈ (handle "bot" ⟨[⟨1, "T1"⟩, ⟨2, "T2"⟩], [], 0, []⟩
            (startEvent 1 10 "/start" ⟨"T3", true, true, true, "now"⟩)).store.users :=
  ⟨(users_rows_change_only_on_issue "bot" ⟨[⟨1, "T1"⟩, ⟨2, "T2"⟩], [], 0, []⟩
      (textEvent 5 50 "hello" false "" "" ⟨"u", true, true, true, "now"⟩)).1 (by decide),
   ((users_rows_change_only_on_issue "bot" ⟨[⟨1, "T1"⟩, ⟨2, "T2"⟩], [], 0, []⟩
      (startEvent 1 10 "/start" ⟨"T3", true, true, true, "now"⟩)).2 ⟨1, "T3"⟩ (by decide)
      ⟨2, "T2"⟩).2 (Or.inr ⟨by decide, by decide, by decide⟩),
   ((users_rows_change_only_on_issue "bot" ⟨[⟨1, "T1"⟩, ⟨2, "T2"⟩], [], 0, []⟩
      (startEvent 1 10 "/start" ⟨"T3", true, true, true, "now"⟩)).2 ⟨1, "T3"⟩ (by decide)
      ⟨1, "T3"⟩).2 (Or.inl rfl)⟩

/-- C4, as stated, fails: owner 1 is issued "T1", sender 5 opens the link
"T1", identity 2 is issued the same string "T1" (which deletes the row of
owner 1), and owner 1 is issued "T2".  Afterwards "T1" is still the
`unique_id` of a `users` row, and the text "hello" from sender 5, bound to
"T1", appends a `messages` row and is forwarded to identity 2. -/
theorem token_collision_keeps_previous_token :
    (run "bot" emptyStore
        [startEvent 1 10 "/start" ⟨"T1", true, true, true, "now"⟩,
         startWithEvent 5 50 "/start T1" "T1" ⟨"u", true, true, true, "now"⟩,
         startEvent 2 20 "/start" ⟨"T1", true, true, true, "now"⟩,
         startEvent 1 10 "/start" ⟨"T2", true, true, true, "now"⟩])
      = ⟨[⟨2, "T1"⟩, ⟨1, "T2"⟩], [], 0, [⟨5, "T1"⟩]⟩
      ∧ ¬ (∀ u ∈ (⟨[⟨2, "T1"⟩, ⟨1, "T2"⟩], [], 0, [⟨5, "T1"⟩]⟩ : Store).users,
            u.UniqueID ≠ "T1")
      ∧ handle "bot" ⟨[⟨2, "T1"⟩, ⟨1, "T2"⟩], [], 0, [⟨5, "T1"⟩]⟩
          (textEvent 5 50 "hello" false "" "" ⟨"u", true, true, true, "now"⟩)
        = ⟨⟨[⟨2, "T1"⟩, ⟨1, "T2"⟩], [⟨1, 5, 2, "hello", "now", false⟩], 1,
              [⟨5, "T1"⟩]⟩,
            [⟨2, "Тебе пришло сообщение: hello"⟩], []⟩ := by
  decide

/-- C4, amended: owner `owner` is issued token `env1.newUUID` (store `s1`), any
events `mid` are handled (store `s2`), and `owner` is issued a different token
`env2.newUUID` (store `s3`); between the two issuances no other identity is
issued `env1.newUUID` (nothing to require when the issuances are
consecutive).  Then `users` has exactly one row for `owner` and it carries the
second token, the first token is the `unique_id` of no `users` row, `sessions`
is exactly as before the second issuance (rows pointing at the first token
included), and a non-empty text from any sender whose `sessions` row carries
the first token changes nothing in the store and is relayed to nobody: nothing
is sent, or, when the query on `sessions` fails, only the start prompt to the
sender's chat. -/
theorem reissue_invalidates_previous_token (bot : String) (s0 s1 s2 s3 : Store)
    (owner chat1 chat2 : Int) (text1 text2 : String) (env1 env2 : Env) (mid : List Event)
    (hok1 : env1.execOk = true) (hok2 : env2.execOk = true)
    (hne : env2.newUUID ≠ env1.newUUID)
    (hs1 : s1 = (handle bot s0 (startEvent owner chat1 text1 env1)).store)
    (hs2 : s2 = run bot s1 mid)
    (hs3 : s3 = (handle bot s2 (startEvent owner chat2 text2 env2)).store)
    (hmid : ∀ ev ∈ mid, ∀ u, issued ev = some u → u.UniqueID = env1.newUUID →
      u.TelegramID = owner) :
    s3.users.filter (fun u => decide (u.TelegramID = owner)) = [⟨owner, env2.newUUID⟩]
      ∧ (∀ u ∈ s3.users, u.UniqueID ≠ env1.newUUID)
      ∧ s3.sessions = s2.sessions
      ∧ ∀ (sender chat : Int) (x : String) (isCommand : Bool) (command arguments : String)
          (env : Env), x ≠ "" → ¬ (isCommand = true ∧ command = "start") →
          lookupToken s3 sender = some env1.newUUID →
          handle bot s3 (textEvent sender chat x isCommand command arguments env)
            = if env.sessionsScanOk = true then ⟨s3, [], [LogLine.errorFindingOwner]⟩
              else ⟨s3, [⟨chat, "Пожалуйста начни с валидной ссылкой /start <unique_id>"⟩],
                [LogLine.errorFindingSession]⟩ := by
  have e1 : s1 = insertOrReplaceUser s0 owner env1.newUUID := by
    rw [hs1, handle_start, if_pos hok1]
  have e3 : s3 = insertOrReplaceUser s2 owner env2.newUUID := by
    rw [hs3, handle_start, if_pos hok2]
  have inv1 : ∀ r ∈ s1.users, r.UniqueID = env1.newUUID → r.TelegramID = owner := by
    intro r hr hrt
    rw [e1] at hr
    rcases (mem_insertOrReplaceUser s0 owner env1.newUUID r).1 hr with h | h
    · rw [h]
    · exact absurd hrt h.2.2
  have inv2 : ∀ r ∈ s2.users, r.UniqueID = env1.newUUID → r.TelegramID = owner := by
    rw [hs2]
    exact run_token_holder bot env1.newUUID owner mid s1 inv1 hmid
  have dead : ∀ u ∈ s3.users, u.UniqueID ≠ env1.newUUID := by
    intro u hu hut
    rw [e3] at hu
    rcases (mem_insertOrReplaceUser s2 owner env2.newUUID u).1 hu with h | h
    · rw [h] at hut
      exact hne hut
    · exact h.2.1 (inv2 u h.1 hut)
  refine ⟨?_, dead, ?_, ?_⟩
  · rw [e3]
    exact filter_owner_insertOrReplaceUser s2 owner env2.newUUID
  · rw [e3]
    rfl
  · intro sender chat x isCommand command arguments env hx hcmd hsess
    exact handle_text_dead_token bot s3 sender chat x isCommand command arguments env
      env1.newUUID hx hcmd hsess ((lookupOwner_eq_none_iff s3 env1.newUUID).2 dead)

/-- Witness for C4 (amended): owner 1 is issued "T1"; sender 2 binds to "T1"
and owner 7 is issued "T7"; owner 1 is issued "T2".  Afterwards the only row of
owner 1 carries "T2", the session of sender 2 is still (2, "T1"), and "hello"
from sender 2 is dropped. -/
theorem reissue_invalidates_previous_token_witness :
    (⟨[⟨7, "T7"⟩, ⟨1, "T2"⟩], [], 0, [⟨2, "T1"⟩]⟩ : Store).users.filter
        (fun u => decide (u.TelegramID = 1)) = [⟨1, "T2"⟩]
      ∧ (⟨[⟨7, "T7"⟩, ⟨1, "T2"⟩], [], 0, [⟨2, "T1"⟩]⟩ : Store).sessions = [⟨2, "T1"⟩]
      ∧ handle "bot" ⟨[⟨7, "T7"⟩, ⟨1, "T2"⟩], [], 0, [⟨2, "T1"⟩]⟩
          (textEvent 2 20 "hello" false "" "" ⟨"u", true, true, true, "now"⟩)
        = ⟨⟨[⟨7, "T7"⟩, ⟨1, "T2"⟩], [], 0, [⟨2, "T1"⟩]⟩, [],
            [LogLine.errorFindingOwner]⟩ :=
  have h := reissue_invalidates_previous_token "bot" emptyStore
    ⟨[⟨1, "T1"⟩], [], 0, []⟩
    ⟨[⟨1, "T1"⟩, ⟨7, "T7"⟩], [], 0, [⟨2, "T1"⟩]⟩
    ⟨[⟨7, "T7"⟩, ⟨1, "T2"⟩], [], 0, [⟨2, "T1"⟩]⟩
    1 10 10 "/start" "/start" ⟨"T1", true, true, true, "now"⟩
    ⟨"T2", true, true, true, "now"⟩
    [startWithEvent 2 20 "/start T1" "T1" ⟨"u", true, true, true, "now"⟩,
     startEvent 7 70 "/start" ⟨"T7", true, true, true, "now"⟩]
    rfl rfl (by decide) (by decide) (by decide) (by decide) (by decide)
  ⟨h.1, h.2.2.1, h.2.2.2 2 20 "hello" false "" "" ⟨"u", true, true, true, "now"⟩
    (by decide) (by decide) (by decide)⟩

/-- C5, as stated, fails: owner 1 holds "T1", owner 2 holds "T2", and sender 5
opens "T1" and then "T2", both saved.  With `users` unchanged, the text "hello"
from sender 5 is neither persisted nor sent when its insert fails; and after
sender 5 opens "T1" again, the text "hello" is persisted for and sent to
owner 1. -/
theorem rebind_relay_not_unconditional :
    run "bot" ⟨[⟨1, "T1"⟩, ⟨2, "T2"⟩], [], 0, []⟩
        [startWithEvent 5 50 "/start T1" "T1" ⟨"u", true, true, true, "now"⟩,
         startWithEvent 5 50 "/start T2" "T2" ⟨"u", true, true, true, "now"⟩]
      = ⟨[⟨1, "T1"⟩, ⟨2, "T2"⟩], [], 0, [⟨5, "T2"⟩]⟩
      ∧ handle "bot" ⟨[⟨1, "T1"⟩, ⟨2, "T2"⟩], [], 0, [⟨5, "T2"⟩]⟩
          (textEvent 5 50 "hello" false "" "" ⟨"u", true, true, false, "now"⟩)
        = ⟨⟨[⟨1, "T1"⟩, ⟨2, "T2"⟩], [], 0, [⟨5, "T2"⟩]⟩, [],
            [LogLine.errorSavingMessage]⟩
      ∧ run "bot" ⟨[⟨1, "T1"⟩, ⟨2, "T2"⟩], [], 0, [⟨5, "T2"⟩]⟩
          [startWithEvent 5 50 "/start T1" "T1" ⟨"u", true, true, true, "now"⟩]
        = ⟨[⟨1, "T1"⟩, ⟨2, "T2"⟩], [], 0, [⟨5, "T1"⟩]⟩
      ∧ handle "bot" ⟨[⟨1, "T1"⟩, ⟨2, "T2"⟩], [], 0, [⟨5, "T1"⟩]⟩
          (textEvent 5 50 "hello" false "" "" ⟨"u", true, true, true, "now"⟩)
        = ⟨⟨[⟨1, "T1"⟩, ⟨2, "T2"⟩], [⟨1, 5, 1, "hello", "now", false⟩], 1,
              [⟨5, "T1"⟩]⟩,
            [⟨1, "Тебе пришло сообщение: hello"⟩], []⟩ := by
  decide

/-- C5, amended: in a store where token `t1` belongs to `o1` and token `t2` to
a different owner `o2`, sender `a` sends `/start t1` and then `/start t2`, both
found and saved (store `s2`).  Then `sessions` has exactly one row for `a` and
it carries `t2`.  After any further events `mid` in which `a` sends no
`/start` with a token present in `users`, with `users` as it was (store `s3`),
every non-empty text `x` from `a` whose two queries and insert succeed appends
one `messages` row addressed to `o2` and sends one message, to `o2`.  Whatever
the outcome of the queries and of the insert, no new `messages` row is
addressed to `o1`, and nothing is sent except that message to `o2` or the start
prompt to the sender's own chat. -/
theorem rebind_relays_to_new_owner_only (bot : String) (s s2 s3 : Store)
    (a chat1 chat2 o1 o2 : Int) (text1 text2 t1 t2 : String) (env1 env2 : Env)
    (mid : List Event)
    (ht1 : t1 ≠ "") (ht2 : t2 ≠ "")
    (ho1 : lookupOwner s t1 = some o1) (ho2 : lookupOwner s t2 = some o2)
    (hdiff : o1 ≠ o2)
    (hscan1 : env1.usersScanOk = true) (hok1 : env1.execOk = true)
    (hscan2 : env2.usersScanOk = true) (hok2 : env2.execOk = true)
    (hs2 : s2 = run bot s
      [startWithEvent a chat1 text1 t1 env1, startWithEvent a chat2 text2 t2 env2])
    (hs3 : s3 = run bot s2 mid)
    (hmid : everSentValidLink bot a s2 mid = false)
    (husers : s3.users = s.users) :
    s2.sessions.filter (fun r => decide (r.AnonID = a)) = [⟨a, t2⟩]
      ∧ ∀ (chat : Int) (x : String) (isCommand : Bool) (command arguments : String)
          (env : Env), x ≠ "" → ¬ (isCommand = true ∧ command = "start") →
          (env.sessionsScanOk = true → env.usersScanOk = true → env.execOk = true →
            handle bot s3 (textEvent a chat x isCommand command arguments env)
              = ⟨{ s3 with
                    messages := s3.messages ++
                      [⟨max s3.messagesSeq (maxMessageID s3.messages) + 1, a, o2, x,
                        env.now, false⟩]
                    messagesSeq := max s3.messagesSeq (maxMessageID s3.messages) + 1 },
                  [⟨o2, "Тебе пришло сообщение: " ++ x⟩], []⟩)
          ∧ (∀ m ∈ (handle bot s3
                (textEvent a chat x isCommand command arguments env)).store.messages,
              m ∈ s3.messages ∨ m.ToOwnerID ≠ o1)
          ∧ (∀ c ∈ (handle bot s3
                (textEvent a chat x isCommand command arguments env)).sent,
              c = ⟨o2, "Тебе пришло сообщение: " ++ x⟩
                ∨ c = ⟨chat, "Пожалуйста начни с валидной ссылкой /start <unique_id>"⟩) := by
  have e2 : s2 = insertOrReplaceSession (insertOrReplaceSession s a t1) a t2 := by
    have hsel1 : selectTelegramID env1.usersScanOk s t1 = some o1 := by
      rw [hscan1]; exact ho1
    have hsel2 : selectTelegramID env2.usersScanOk (insertOrReplaceSession s a t1) t2
        = some o2 := by
      rw [hscan2]; exact ho2
    rw [hs2, run_cons, run_cons, run_nil,
      handle_startWith_present bot s a chat1 text1 t1 env1 o1 ht1 hsel1, if_pos hok1]
    simp only []
    rw [handle_startWith_present bot _ a chat2 text2 t2 env2 o2 ht2 hsel2, if_pos hok2]
  have hsess : lookupToken s3 a = some t2 := by
    rw [hs3, run_lookupToken bot a mid s2 hmid, e2]
    exact lookupToken_insert_self _ a t2
  have hown : lookupOwner s3 t2 = some o2 := by
    rw [lookupOwner_congr s3 s husers]
    exact ho2
  refine ⟨?_, ?_⟩
  · rw [e2]
    exact filter_sender_insertOrReplaceSession _ a t2
  · intro chat x isCommand command arguments env hx hcmd
    have hstep := handle_text_bound bot s3 a chat x isCommand command arguments env t2 o2
      hx hcmd hsess hown
    refine ⟨?_, ?_, ?_⟩
    · intro hqs hqu hok
      rw [hstep, if_pos hqs, if_pos hqu, if_pos hok]
      rfl
    · intro m hm
      rw [hstep] at hm
      by_cases hqs : env.sessionsScanOk = true
      · by_cases hqu : env.usersScanOk = true
        · by_cases hok : env.execOk = true
          · rw [if_pos hqs, if_pos hqu, if_pos hok] at hm
            simp only [insertMessage, List.mem_append, List.mem_singleton] at hm
            rcases hm with h | h
            · exact Or.inl h
            · right
              rw [h]
              exact fun h' => hdiff h'.symm
          · rw [if_pos hqs, if_pos hqu, if_neg hok] at hm
            exact Or.inl hm
        · rw [if_pos hqs, if_neg hqu] at hm
          exact Or.inl hm
      · rw [if_neg hqs] at hm
        exact Or.inl hm
    · intro c hc
      rw [hstep] at hc
      by_cases hqs : env.sessionsScanOk = true
      · by_cases hqu : env.usersScanOk = true
        · by_cases hok : env.execOk = true
          · rw [if_pos hqs, if_pos hqu, if_pos hok] at hc
            simp only [List.mem_singleton] at hc
            exact Or.inl hc
          · rw [if_pos hqs, if_pos hqu, if_neg hok] at hc
            simp at hc
        · rw [if_pos hqs, if_neg hqu] at hc
          simp at hc
      · rw [if_neg hqs] at hc
        simp only [List.mem_singleton] at hc
        exact Or.inr hc

/-- Witness for C5 (amended): owner 1 holds "T1", owner 2 holds "T2"; sender 5
opens "T1", then "T2"; sender 6 opens "T1" and sender 5 tries the unknown link
"bad"; then sender 5 sends "hello", which goes to owner 2. -/
theorem rebind_relays_to_new_owner_only_witness :
    (⟨[⟨1, "T1"⟩, ⟨2, "T2"⟩], [], 0, [⟨5, "T2"⟩]⟩ : Store).sessions.filter
        (fun r => decide (r.AnonID = 5)) = [⟨5, "T2"⟩]
      ∧ handle "bot" ⟨[⟨1, "T1"⟩, ⟨2, "T2"⟩], [], 0, [⟨5, "T2"⟩, ⟨6, "T1"⟩]⟩
          (textEvent 5 50 "hello" false "" "" ⟨"u", true, true, true, "now"⟩)
        = ⟨⟨[⟨1, "T1"⟩, ⟨2, "T2"⟩],
              [] ++ [⟨max 0 (maxMessageID []) + 1, 5, 2, "hello", "now", false⟩],
              max 0 (maxMessageID []) + 1, [⟨5, "T2"⟩, ⟨6, "T1"⟩]⟩,
            [⟨2, "Тебе пришло сообщение: " ++ "hello"⟩], []⟩ :=
  have h := rebind_relays_to_new_owner_only "bot"
    ⟨[⟨1, "T1"⟩, ⟨2, "T2"⟩], [], 0, []⟩
    ⟨[⟨1, "T1"⟩, ⟨2, "T2"⟩], [], 0, [⟨5, "T2"⟩]⟩
    ⟨[⟨1, "T1"⟩, ⟨2, "T2"⟩], [], 0, [⟨5, "T2"⟩, ⟨6, "T1"⟩]⟩
    5 50 50 1 2 "/start T1" "/start T2" "T1" "T2" ⟨"u", true, true, true, "now"⟩
    ⟨"u", true, true, true, "now"⟩
    [startWithEvent 6 60 "/start T1" "T1" ⟨"u", true, true, true, "now"⟩,
     startWithEvent 5 50 "/start bad" "bad" ⟨"u", true, true, true, "now"⟩]
    (by decide) (by decide) (by decide) (by decide) (by decide) rfl rfl rfl rfl
    (by decide) (by decide) (by decide) rfl
  ⟨h.1, (h.2 50 "hello" false "" "" ⟨"u", true, true, true, "now"⟩ (by decide)
    (by decide)).1 rfl rfl rfl⟩

end Anonmsgbot
